import Mathlib

/-!
Verification of the metrics-engine arithmetic of the economic growth model
repository (currency_strength_analysis.py, economic_comparison_dashboard.py,
economic_growth_prediction_model.py).

The engine is a set of pure arithmetic transforms over small in-memory
tables.  Numeric columns are embedded as lists of rationals: all claims
under scrutiny are exact order or equality facts that are insensitive to
the binary floating point representation used by the Python code, except
for division by a zero maximum, which is treated separately with an
explicit model of the special float values produced by numpy (see
`PFloat` below).
-/

/-- Maximum of a list of rationals, as computed by the pandas `max`
aggregation over a numeric column.  The empty case never arises in the
code (columns are nonempty); it is given the junk value 0. -/
def listMax : List ℚ → ℚ
  | [] => 0
  | [x] => x
  | x :: y :: xs => max x (listMax (y :: xs))

theorem le_listMax {l : List ℚ} {v : ℚ} (hv : v ∈ l) : v ≤ listMax l := by
  induction l with
  | nil => cases hv
  | cons x xs ih =>
    cases xs with
    | nil =>
      rcases List.mem_cons.mp hv with h | h
      · simp [listMax, h]
      · cases h
    | cons y ys =>
      rcases List.mem_cons.mp hv with h | h
      · simp [listMax, h]
      · exact le_trans (ih h) (by simp [listMax])

theorem listMax_mem {l : List ℚ} (h : l ≠ []) : listMax l ∈ l := by
  induction l with
  | nil => exact absurd rfl h
  | cons x xs ih =>
    cases xs with
    | nil => simp [listMax]
    | cons y ys =>
      rcases max_cases x (listMax (y :: ys)) with ⟨he, _⟩ | ⟨he, _⟩
      · simp [listMax, he]
      · have := ih (by simp)
        simp only [listMax, he]
        exact List.mem_cons_of_mem x this

/-- `normalize_relative`: the relative-metric computation the dashboards
apply to each numeric column, `value / max(values) * 100` per entry
(economic_comparison_dashboard.py lines 27-29,
economic_growth_prediction_model.py lines 85-91). -/
def normalize_relative (values : List ℚ) : List ℚ :=
  values.map (fun v => v / listMax values * 100)

theorem normalize_relative_length (l : List ℚ) :
    (normalize_relative l).length = l.length := by
  simp [normalize_relative]

/-- C1: on a nonempty collection of positive values, the entry holding the
maximum is normalized to exactly 100, every normalized value lies in
[0, 100], and a single-element collection of a positive value is sent to
the single value 100. -/
theorem normalize_relative_max_100 (l : List ℚ) (hne : l ≠ [])
    (hpos : ∀ v ∈ l, 0 < v) :
    (∀ i : Fin l.length, l.get i = listMax l →
      (normalize_relative l).get (Fin.cast (normalize_relative_length l).symm i) = 100) ∧
    (∀ w ∈ normalize_relative l, 0 ≤ w ∧ w ≤ 100) ∧
    (∀ x : ℚ, 0 < x → normalize_relative [x] = [100]) := by
  have hmaxpos : 0 < listMax l := hpos _ (listMax_mem hne)
  refine ⟨?_, ?_, ?_⟩
  · intro i hi
    have : (normalize_relative l).get (Fin.cast (normalize_relative_length l).symm i)
        = l.get i / listMax l * 100 := by
      simp [normalize_relative]
    rw [this, hi, div_self (ne_of_gt hmaxpos)]
    norm_num
  · intro w hw
    rcases List.mem_map.mp hw with ⟨v, hv, rfl⟩
    have hv0 : 0 < v := hpos v hv
    have hvle : v ≤ listMax l := le_listMax hv
    constructor
    · positivity
    · have hdiv : v / listMax l ≤ 1 := (div_le_one hmaxpos).mpr hvle
      calc v / listMax l * 100 ≤ 1 * 100 := by nlinarith
        _ = 100 := by norm_num
  · intro x hx
    simp [normalize_relative, listMax, div_self (ne_of_gt hx)]

/-- Witness for C1 at the concrete collection [1, 2]. -/
theorem normalize_relative_max_100_witness :
    (([1, 2] : List ℚ) ≠ [] ∧ ∀ v ∈ ([1, 2] : List ℚ), 0 < v) ∧
    ((∀ i : Fin ([1, 2] : List ℚ).length, ([1, 2] : List ℚ).get i = listMax [1, 2] →
        (normalize_relative [1, 2]).get
          (Fin.cast (normalize_relative_length [1, 2]).symm i) = 100) ∧
      (∀ w ∈ normalize_relative [1, 2], 0 ≤ w ∧ w ≤ 100) ∧
      (∀ x : ℚ, 0 < x → normalize_relative [x] = [100])) :=
  ⟨⟨by simp, by decide⟩, normalize_relative_max_100 [1, 2] (by simp) (by decide)⟩

/-!
The numeric columns in the Python code are IEEE double columns, and numpy
float division by zero does not raise: it produces `inf`, `-inf` or `nan`.
`PFloat` models a pandas float cell exactly for the operations the
normalization step performs (division, scaling by 100); finite cells carry
exact rationals, which is faithful here because the zero-max claim only
concerns which special value appears, not rounding. -/
inductive PFloat : Type where
  | fin (q : ℚ)
  | inf
  | negInf
  | nan
deriving DecidableEq, Repr

/-- IEEE division as performed by a pandas column division.  A finite
numerator divided by zero yields a signed infinity, or `nan` for 0/0. -/
def PFloat.div : PFloat → PFloat → PFloat
  | .fin a, .fin b =>
      if b = 0 then (if 0 < a then .inf else if a < 0 then .negInf else .nan)
      else .fin (a / b)
  | .fin _, .inf => .fin 0
  | .fin _, .negInf => .fin 0
  | .inf, .fin b => if 0 ≤ b then .inf else .negInf
  | .negInf, .fin b => if 0 ≤ b then .negInf else .inf
  | .nan, _ => .nan
  | _, .nan => .nan
  | .inf, .inf => .nan
  | .inf, .negInf => .nan
  | .negInf, .inf => .nan
  | .negInf, .negInf => .nan

/-- IEEE multiplication as performed by a pandas column scaling. -/
def PFloat.mul : PFloat → PFloat → PFloat
  | .fin a, .fin b => .fin (a * b)
  | .fin a, .inf => if 0 < a then .inf else if a < 0 then .negInf else .nan
  | .fin a, .negInf => if 0 < a then .negInf else if a < 0 then .inf else .nan
  | .inf, .fin b => if 0 < b then .inf else if b < 0 then .negInf else .nan
  | .negInf, .fin b => if 0 < b then .negInf else if b < 0 then .inf else .nan
  | .inf, .inf => .inf
  | .inf, .negInf => .negInf
  | .negInf, .inf => .negInf
  | .negInf, .negInf => .inf
  | .nan, _ => .nan
  | _, .nan => .nan

/-- The relative-metric computation of the dashboards again
(`value / max * 100` per entry), this time at the float level, keeping the
special values numpy produces when the column maximum is zero. -/
def normalize_relative_fp (values : List ℚ) : List PFloat :=
  values.map (fun v => PFloat.mul (PFloat.div (.fin v) (.fin (listMax values))) (.fin 100))

/-- Counterexample to C3: on the single-entry collection [0] (whose max is
0), the column arithmetic the code performs returns the value series [nan];
it does not fail with a division error. -/
theorem normalize_relative_fp_zero_singleton :
    normalize_relative_fp [0] = [PFloat.nan] := by decide

theorem normalize_relative_fp_length (l : List ℚ) :
    (normalize_relative_fp l).length = l.length := by
  simp [normalize_relative_fp]

theorem div_zero_scale_nonpos {v : ℚ} (hle : v ≤ 0) :
    PFloat.mul (PFloat.div (.fin v) (.fin 0)) (.fin 100)
      = if v = 0 then PFloat.nan else PFloat.negInf := by
  rcases lt_or_eq_of_le hle with hlt | heq
  · rw [if_neg (ne_of_lt hlt)]
    simp [PFloat.div, PFloat.mul, hlt, not_lt.mpr hle]
  · rw [if_pos heq, heq]
    simp [PFloat.div, PFloat.mul]

/-- C3 amended: on a collection whose maximum is 0, the normalization does
not fail; every zero entry is mapped to `nan` (from 0/0) and every negative
entry to `-inf`, following numpy float-division semantics. -/
theorem normalize_relative_fp_zero_max (l : List ℚ) (hmax : listMax l = 0) :
    ∀ i : Fin l.length,
      (normalize_relative_fp l).get (Fin.cast (normalize_relative_fp_length l).symm i)
        = if l.get i = 0 then PFloat.nan else PFloat.negInf := by
  intro i
  have hget : (normalize_relative_fp l).get (Fin.cast (normalize_relative_fp_length l).symm i)
      = PFloat.mul (PFloat.div (.fin (l.get i)) (.fin (listMax l))) (.fin 100) := by
    simp [normalize_relative_fp]
  have hle : l.get i ≤ 0 := hmax ▸ le_listMax (List.get_mem l i.1 i.2)
  rw [hget, hmax, div_zero_scale_nonpos hle]

/-- Witness for the amended C3 at the concrete collection [0, -1]. -/
theorem normalize_relative_fp_zero_max_witness :
    listMax [0, -1] = 0 ∧
    (∀ i : Fin ([0, -1] : List ℚ).length,
      (normalize_relative_fp [0, -1]).get
          (Fin.cast (normalize_relative_fp_length [0, -1]).symm i)
        = if ([0, -1] : List ℚ).get i = 0 then PFloat.nan else PFloat.negInf) :=
  ⟨by decide, normalize_relative_fp_zero_max [0, -1] (by decide)⟩

/-!
Year lookup.  The growth-forecast tables of the dashboard are Python
dictionaries read with a comprehension `[mapping[y] for y in years]`
(economic_comparison_dashboard.py lines 98-102); a missing key raises
`KeyError`, modelled as `none`.  The prediction model instead selects a
year by filtering the employment-prediction rows and summing the selection
(economic_growth_prediction_model.py lines 115-117). -/
def lookupYear (m : List (Nat × ℚ)) (y : Nat) : Option ℚ :=
  (m.find? (fun p => p.1 = y)).map Prod.snd

/-- `linear_table_lookup`, dictionary form: look every requested year up in
the mapping; any `KeyError` aborts the whole comprehension. -/
def linear_table_lookup (m : List (Nat × ℚ)) : List Nat → Option (List ℚ)
  | [] => some []
  | y :: ys =>
      match lookupYear m y, linear_table_lookup m ys with
      | some v, some vs => some (v :: vs)
      | _, _ => none

/-- The second implementation site the spec assigns to the lookup: filter
the rows on the requested year and sum the selected values, as the pandas
boolean-mask selection does. -/
def linear_table_lookup_by_filter (rows : List (Nat × ℚ)) (year : Nat) : ℚ :=
  ((rows.filter (fun p => p.1 = year)).map Prod.snd).sum

/-- Counterexample to C4: the filter-and-sum implementation site, applied
to a table without the requested year 2028, returns the default value 0
instead of failing. -/
theorem lookup_by_filter_absent_returns_zero :
    (∀ p ∈ [(2024, (172 : ℚ) / 10), (2025, (181 : ℚ) / 10)], p.1 ≠ 2028) ∧
    linear_table_lookup_by_filter [(2024, 172 / 10), (2025, 181 / 10)] 2028 = 0 := by
  constructor
  · decide
  · rfl

theorem lookup_chain_none {m : List (Nat × ℚ)} {y : Nat} (habs : lookupYear m y = none) :
    ∀ years : List Nat, y ∈ years → linear_table_lookup m years = none := by
  intro years hy
  induction years with
  | nil => cases hy
  | cons z zs ih =>
    rcases List.mem_cons.mp hy with rfl | hz
    · simp [linear_table_lookup, habs]
    · rw [linear_table_lookup, ih hz]
      cases lookupYear m z <;> rfl

/-- C4 amended: the dictionary-based lookup fails (returns `none`) whenever
any requested year is absent from the mapping, and never substitutes a
default; the filter-and-sum site of the prediction model instead returns 0
for an absent year. -/
theorem linear_table_lookup_absent
    (m : List (Nat × ℚ)) (years : List Nat) (y : Nat)
    (hy : y ∈ years) (habs : lookupYear m y = none)
    (rows : List (Nat × ℚ)) (z : Nat) (hz : ∀ p ∈ rows, p.1 ≠ z) :
    linear_table_lookup m years = none ∧
    linear_table_lookup_by_filter rows z = 0 := by
  refine ⟨lookup_chain_none habs years hy, ?_⟩
  have hfil : rows.filter (fun p => p.1 = z) = [] := by
    apply List.filter_eq_nil_iff.mpr
    intro p hp
    simpa using hz p hp
  simp [linear_table_lookup_by_filter, hfil]

/-- Witness for the amended C4: requesting years [2024, 2028] against a
mapping holding only 2024 and 2025 fails, and the filter-based site
returns 0 on the same missing year. -/
theorem linear_table_lookup_absent_witness :
    ((2028 ∈ [2024, 2028]) ∧ lookupYear [(2024, 42), (2025, 45)] 2028 = none ∧
      (∀ p ∈ [(2024, (42 : ℚ)), (2025, 45)], p.1 ≠ 2028)) ∧
    (linear_table_lookup [(2024, 42), (2025, 45)] [2024, 2028] = none ∧
      linear_table_lookup_by_filter [(2024, 42), (2025, 45)] 2028 = 0) :=
  ⟨⟨by decide, by decide, by decide⟩,
    linear_table_lookup_absent [(2024, 42), (2025, 45)] [2024, 2028] 2028
      (by decide) (by decide) [(2024, 42), (2025, 45)] 2028 (by decide)⟩

/-!
Sector-weighted growth.  calculate_economic_indicators computes a
`GDP_Impact` column as `(Growth_% / 100) * Economic_Contribution`
(economic_growth_prediction_model.py lines 40-45) and predict_gdp_growth
aggregates `(GDP_Impact * Employment).sum() / Employment.sum()`
(lines 51-62).  A sector is embedded as the triple
(growth percentage, contribution weight, employment). -/
def gdp_impact (growth contribution : ℚ) : ℚ := growth / 100 * contribution

def sector_weighted_growth (sectors : List (ℚ × ℚ × ℚ)) : ℚ :=
  ((sectors.map (fun s => gdp_impact s.1 s.2.1 * s.2.2)).sum)
    / ((sectors.map (fun s => s.2.2)).sum)

/-- C6: with nonzero total employment the aggregate is the
employment-weighted mean of the per-sector GDP impacts, and on the two
sectors (10, 0.25, 1000) and (5, 0.15, 2000) it equals 1/75, a growth
percentage within 0.001 of 1.333. -/
theorem sector_weighted_growth_spec (sectors : List (ℚ × ℚ × ℚ))
    (h : (sectors.map (fun s => s.2.2)).sum ≠ 0) :
    sector_weighted_growth sectors * (sectors.map (fun s => s.2.2)).sum
        = (sectors.map (fun s => s.1 / 100 * s.2.1 * s.2.2)).sum ∧
    sector_weighted_growth [(10, 1 / 4, 1000), (5, 3 / 20, 2000)] = 1 / 75 ∧
    |100 * sector_weighted_growth [(10, 1 / 4, 1000), (5, 3 / 20, 2000)]
        - 1333 / 1000| ≤ 1 / 1000 := by
  refine ⟨?_, ?_, ?_⟩
  · rw [sector_weighted_growth, div_mul_cancel₀ _ h]
    simp [gdp_impact]
  · norm_num [sector_weighted_growth, gdp_impact]
  · norm_num [sector_weighted_growth, gdp_impact, abs_le]

/-- Witness for C6 at the two example sectors. -/
theorem sector_weighted_growth_spec_witness :
    (([(10, 1 / 4, 1000), (5, 3 / 20, 2000)] : List (ℚ × ℚ × ℚ)).map
        (fun s => s.2.2)).sum ≠ 0 ∧
    (sector_weighted_growth [(10, 1 / 4, 1000), (5, 3 / 20, 2000)]
          * (([(10, 1 / 4, 1000), (5, 3 / 20, 2000)] : List (ℚ × ℚ × ℚ)).map
              (fun s => s.2.2)).sum
        = (([(10, 1 / 4, 1000), (5, 3 / 20, 2000)] : List (ℚ × ℚ × ℚ)).map
            (fun s => s.1 / 100 * s.2.1 * s.2.2)).sum ∧
      sector_weighted_growth [(10, 1 / 4, 1000), (5, 3 / 20, 2000)] = 1 / 75 ∧
      |100 * sector_weighted_growth [(10, 1 / 4, 1000), (5, 3 / 20, 2000)]
          - 1333 / 1000| ≤ 1 / 1000) :=
  ⟨by norm_num, sector_weighted_growth_spec [(10, 1 / 4, 1000), (5, 3 / 20, 2000)] (by norm_num)⟩

/-!
Purchasing-power functions (currency_strength_analysis.py lines 28-29). -/
def ppp_adjusted_income (gdp_per_capita cost_index : ℚ) : ℚ :=
  gdp_per_capita * 100 / cost_index

def currency_fair_value (exchange_rate cost_index : ℚ) : ℚ :=
  exchange_rate * (cost_index / 100)

/-- C7: the PPP-adjusted income is `gdp_per_capita * 100 / cost_index`;
at (85000, 100) it is exactly 85000 and at (6800, 45) it is within 0.01
of 15111.11. -/
theorem ppp_adjusted_income_spec (g c : ℚ) (hc : c ≠ 0) :
    ppp_adjusted_income g c = g * 100 / c ∧
    ppp_adjusted_income g c * c = g * 100 ∧
    ppp_adjusted_income 85000 100 = 85000 ∧
    |ppp_adjusted_income 6800 45 - 1511111 / 100| ≤ 1 / 100 := by
  refine ⟨rfl, ?_, ?_, ?_⟩
  · rw [ppp_adjusted_income, div_mul_cancel₀ _ hc]
  · norm_num [ppp_adjusted_income]
  · norm_num [ppp_adjusted_income, abs_le]

/-- Witness for C7 at cost index 45. -/
theorem ppp_adjusted_income_spec_witness :
    (45 : ℚ) ≠ 0 ∧
    (ppp_adjusted_income 6800 45 = 6800 * 100 / 45 ∧
      ppp_adjusted_income 6800 45 * 45 = 6800 * 100 ∧
      ppp_adjusted_income 85000 100 = 85000 ∧
      |ppp_adjusted_income 6800 45 - 1511111 / 100| ≤ 1 / 100) :=
  ⟨by norm_num, ppp_adjusted_income_spec 6800 45 (by norm_num)⟩

/-- C10: for any nonzero cost index the product of the two derived metrics
is independent of the cost index: the scaling cancels exactly and the
product is `gdp_per_capita * exchange_rate`. -/
theorem ppp_times_fair_value (g e c : ℚ) (hc : c ≠ 0) :
    ppp_adjusted_income g c * currency_fair_value e c = g * e := by
  rw [ppp_adjusted_income, currency_fair_value]
  field_simp
  ring

/-- Witness for C10 at (85000, 18.5, 100). -/
theorem ppp_times_fair_value_witness :
    (100 : ℚ) ≠ 0 ∧
    ppp_adjusted_income 85000 100 * currency_fair_value (37 / 2) 100
      = 85000 * (37 / 2) :=
  ⟨by norm_num, ppp_times_fair_value 85000 (37 / 2) 100 (by norm_num)⟩

/-!
Ranking.  Both reports rank a table by one numeric column with
`sort_values(column, ascending=False)` (currency_strength_analysis.py
line 62, economic_growth_prediction_model.py line 123).  The pandas
descending sort reverses the rows, runs the ascending sort, and reverses
the resulting order again, which turns a stable ascending sort into a
stable descending one; at the table sizes of this repository (at most 10
rows) the underlying numpy sort degenerates to insertion sort, which is
stable, so the whole pipeline is embedded as the reversal sandwich around
a stable ascending insertion sort. -/
def ranking {α : Type} (key : α → ℚ) (l : List α) : List α :=
  (List.insertionSort (fun a b => key a ≤ key b) l.reverse).reverse


theorem filter_orderedInsert {α : Type} (key : α → ℚ) (c : ℚ) (a : α) :
    ∀ l : List α,
      (List.orderedInsert (fun x y => key x ≤ key y) a l).filter (fun x => key x = c)
        = if key a = c then a :: l.filter (fun x => key x = c)
          else l.filter (fun x => key x = c)
  | [] => by
      by_cases hc : key a = c <;> simp [List.orderedInsert, hc]
  | b :: t => by
      have ih := filter_orderedInsert key c a t
      by_cases hab : key a ≤ key b
      · rw [List.orderedInsert, if_pos hab]
        by_cases hc : key a = c <;> simp [List.filter_cons, hc]
      · have hba : key b < key a := lt_of_not_le hab
        rw [List.orderedInsert, if_neg hab]
        by_cases hc : key a = c
        · have hbc : ¬ key b = c := fun hb => absurd (hb.trans hc.symm) (ne_of_lt hba)
          simp [List.filter_cons, hbc, ih, hc]
        · by_cases hbc : key b = c <;> simp [List.filter_cons, hbc, ih, hc]

theorem filter_insertionSort {α : Type} (key : α → ℚ) (c : ℚ) :
    ∀ l : List α,
      (List.insertionSort (fun x y => key x ≤ key y) l).filter (fun x => key x = c)
        = l.filter (fun x => key x = c) := by
  intro l
  induction l with
  | nil => rfl
  | cons b t ih =>
    rw [List.insertionSort, filter_orderedInsert key c b, ih]
    by_cases hbc : key b = c <;> simp [List.filter_cons, hbc]

/-- C5: the ranking is a permutation of the input, sorted descending by
the key, stable in the sense that within each key class the original
order of records is kept, and on the three example records A, B, B2 with
values 10, 30, 30 it yields B, then B2, then A. -/
theorem ranking_sorted_stable {α : Type} (key : α → ℚ) (l : List α) :
    (ranking key l).Pairwise (fun a b => key b ≤ key a) ∧
    (ranking key l).Perm l ∧
    (∀ c : ℚ, (ranking key l).filter (fun x => key x = c)
        = l.filter (fun x => key x = c)) ∧
    ranking (fun p : String × ℚ => p.2) [("A", 10), ("B", 30), ("B2", 30)]
      = [("B", 30), ("B2", 30), ("A", 10)] := by
  haveI : IsTotal α (fun a b => key a ≤ key b) := ⟨fun a b => le_total (key a) (key b)⟩
  haveI : IsTrans α (fun a b => key a ≤ key b) :=
    ⟨fun _ _ _ h1 h2 => le_trans h1 h2⟩
  refine ⟨?_, ?_, ?_, ?_⟩
  · rw [ranking, List.pairwise_reverse]
    exact List.sorted_insertionSort (fun a b => key a ≤ key b) l.reverse
  · rw [ranking]
    exact ((List.reverse_perm _).trans
      (List.perm_insertionSort (fun a b => key a ≤ key b) l.reverse)).trans
      (List.reverse_perm l)
  · intro c
    rw [ranking, List.filter_reverse, filter_insertionSort key c, ← List.filter_reverse,
      List.reverse_reverse]
  · norm_num [ranking, List.insertionSort, List.orderedInsert]

/-!
Object states.  Each Python class keeps its constructor-set attributes on
`self`; the three entry points cited by the purity claim read at most the
constructor-set field and assign nothing, which the embedding makes
explicit by passing the attribute record through every call. -/
structure AnalyzerState where
  exchange_rates : List (String × ℚ)
deriving DecidableEq

def analyzer_init : AnalyzerState :=
  ⟨[("USD_ZAR", 18.5), ("CNY_ZAR", 2.55), ("GBP_ZAR", 23.4)]⟩

structure DashboardState where
  countries : List String
deriving DecidableEq

def dashboard_init : DashboardState := ⟨["USA", "China", "England", "South_Africa"]⟩

structure PredictorState where
  private_data : Option (List (String × ℚ × ℚ))
  public_data : Option (List (String × ℚ × ℚ))
  employment_predictions : Option (List (Nat × ℚ))
deriving DecidableEq

def predictor_init : PredictorState := ⟨none, none, none⟩

/-!
analyze_purchasing_power (currency_strength_analysis.py lines 14-31):
builds the PPP table from literal data and the two derived columns. -/
def ppp_country : List String := ["USA", "China", "England", "South_Africa"]

def ppp_cost_index : List ℚ := [100, 58, 127, 45]

def ppp_exchange_rate : List ℚ := [18.5, 2.55, 23.4, 1.0]

def ppp_gdp_per_capita : List ℚ := [85000, 12500, 52000, 6800]

structure PPPTable where
  country : List String
  cost_index : List ℚ
  exchange_rate_to_zar : List ℚ
  gdp_per_capita_usd : List ℚ
  ppp_adjusted : List ℚ
  currency_fair : List ℚ
deriving DecidableEq

def analyze_purchasing_power (s : AnalyzerState) : PPPTable × AnalyzerState :=
  (⟨ppp_country, ppp_cost_index, ppp_exchange_rate, ppp_gdp_per_capita,
    List.zipWith ppp_adjusted_income ppp_gdp_per_capita ppp_cost_index,
    List.zipWith currency_fair_value ppp_exchange_rate ppp_cost_index⟩, s)

/-!
create_comprehensive_dashboard (economic_comparison_dashboard.py
lines 10-40): literal columns, three relative columns through
`normalize_relative`, and the mixed-scale power index. -/
def dash_gdp : List ℚ := [28.0, 18.0, 3.5, 0.4]

def dash_growth_rate : List ℚ := [2.1, 5.2, 1.8, 3.8]

def dash_employment : List ℚ := [160, 780, 33, 16.5]

def dash_currency : List ℚ := [100, 14, 127, 5.3]

def dash_innovation : List ℚ := [87.9, 81.9, 82.2, 42.4]

def dash_freedom : List ℚ := [76.6, 58.4, 78.9, 59.8]

structure DashTable where
  country : List String
  gdp_trillion_usd : List ℚ
  gdp_growth_rate : List ℚ
  employment_millions : List ℚ
  currency_strength : List ℚ
  innovation_index : List ℚ
  economic_freedom : List ℚ
  economic_size_relative : List ℚ
  employment_market_relative : List ℚ
  innovation_relative : List ℚ
  economic_power_index : List ℚ
deriving DecidableEq

def create_comprehensive_dashboard (s : DashboardState) : DashTable × DashboardState :=
  let esr := normalize_relative dash_gdp
  let emr := normalize_relative dash_employment
  let ir := normalize_relative dash_innovation
  let epi := List.zipWith (· + ·)
      (List.zipWith (· + ·)
        (List.zipWith (· + ·)
          (List.zipWith (· + ·) (esr.map (· * 0.35)) (dash_growth_rate.map (· * 5)))
          (emr.map (· * 0.25)))
        (ir.map (· * 0.20)))
      (dash_currency.map (· * 0.20))
  (⟨s.countries, dash_gdp, dash_growth_rate, dash_employment, dash_currency,
    dash_innovation, dash_freedom, esr, emr, ir, epi⟩, s)

/-!
create_international_comparison (economic_growth_prediction_model.py
lines 70-100): the country table in dictionary order USA, China, England,
South_Africa, three normalized indices and the 0.4/0.3/0.3 composite. -/
def comp_gdp : List ℚ := [28.0, 18.0, 3.5, 0.4]

def comp_employment : List ℚ := [160, 780, 33, 16.5]

def comp_currency : List ℚ := [1.0, 0.14, 1.27, 0.053]

structure ComparisonTable where
  country : List String
  gdp : List ℚ
  employment_millions : List ℚ
  currency_strength : List ℚ
  economic_size_index : List ℚ
  employment_strength : List ℚ
  currency_power : List ℚ
  composite_power : List ℚ
deriving DecidableEq

def create_international_comparison (s : PredictorState) : ComparisonTable × PredictorState :=
  let esi := normalize_relative comp_gdp
  let es := normalize_relative comp_employment
  let cp := normalize_relative comp_currency
  let composite := List.zipWith (· + ·)
      (List.zipWith (· + ·) (esi.map (· * 0.4)) (es.map (· * 0.3)))
      (cp.map (· * 0.3))
  (⟨["USA", "China", "England", "South_Africa"], comp_gdp, comp_employment, comp_currency,
    esi, es, cp, composite⟩, s)

/-- Counterexample to C2: the currency-strength column is normalized by
its maximum, which is the England entry 1.27, not the USA entry 1.0, so
the USA currency power is 10000/127, not 100, and the USA composite power
is not within 0.01 of 76.15. -/
theorem composite_power_usa_spec_counterexample :
    (create_international_comparison predictor_init).1.currency_power.headD 0 ≠ 100 ∧
    ¬ |(create_international_comparison predictor_init).1.composite_power.headD 0
        - 7615 / 100| ≤ 1 / 100 := by
  constructor <;>
    norm_num [create_international_comparison, normalize_relative, listMax,
      comp_gdp, comp_employment, comp_currency, max_def, abs_le]

/-- C2 amended: on the USA row, the economic size index is exactly 100,
the employment strength is 160/780*100 = 800/39 (within 0.01 of 20.51),
the currency power is 1/1.27*100 = 10000/127 (within 0.01 of 78.74,
since the column maximum is the England value 1.27), and the composite
power 0.4/0.3/0.3 combination is within 0.01 of 69.78. -/
theorem composite_power_usa_amended :
    (create_international_comparison predictor_init).1.economic_size_index.headD 0 = 100 ∧
    (create_international_comparison predictor_init).1.employment_strength.headD 0
        = 800 / 39 ∧
    |(create_international_comparison predictor_init).1.employment_strength.headD 0
        - 2051 / 100| ≤ 1 / 100 ∧
    (create_international_comparison predictor_init).1.currency_power.headD 0
        = 10000 / 127 ∧
    |(create_international_comparison predictor_init).1.currency_power.headD 0
        - 7874 / 100| ≤ 1 / 100 ∧
    |(create_international_comparison predictor_init).1.composite_power.headD 0
        - 6978 / 100| ≤ 1 / 100 := by
  refine ⟨?_, ?_, ?_, ?_, ?_, ?_⟩ <;>
    norm_num [create_international_comparison, normalize_relative, listMax,
      comp_gdp, comp_employment, comp_currency, max_def, abs_le]

/-- C8: the metrics-engine entry points outside the noise step are pure
and stateless.  Each call returns the attribute record unchanged, the PPP
table and the comparison table are identical whatever the state holds,
and the dashboard table depends only on the constructor-set country list;
hence re-invocation with identical inputs yields identical output and no
call can influence a later one. -/
theorem engine_functions_stateless
    (s1 s2 : AnalyzerState) (d1 d2 : DashboardState) (p1 p2 : PredictorState)
    (hd : d1.countries = d2.countries) :
    (analyze_purchasing_power s1).2 = s1 ∧
    (create_comprehensive_dashboard d1).2 = d1 ∧
    (create_international_comparison p1).2 = p1 ∧
    (analyze_purchasing_power s1).1 = (analyze_purchasing_power s2).1 ∧
    (create_comprehensive_dashboard d1).1 = (create_comprehensive_dashboard d2).1 ∧
    (create_international_comparison p1).1 = (create_international_comparison p2).1 := by
  refine ⟨rfl, rfl, rfl, rfl, ?_, rfl⟩
  simp only [create_comprehensive_dashboard, hd]

/-- Witness for C8 at the constructor states of the three classes and a
second predictor state holding loaded data. -/
theorem engine_functions_stateless_witness :
    dashboard_init.countries = dashboard_init.countries ∧
    ((analyze_purchasing_power analyzer_init).2 = analyzer_init ∧
      (create_comprehensive_dashboard dashboard_init).2 = dashboard_init ∧
      (create_international_comparison predictor_init).2 = predictor_init ∧
      (analyze_purchasing_power analyzer_init).1
          = (analyze_purchasing_power ⟨[]⟩).1 ∧
      (create_comprehensive_dashboard dashboard_init).1
          = (create_comprehensive_dashboard dashboard_init).1 ∧
      (create_international_comparison predictor_init).1
          = (create_international_comparison ⟨some [("Finance", 3.2, 2400)], none, none⟩).1) :=
  ⟨rfl, engine_functions_stateless analyzer_init ⟨[]⟩ dashboard_init dashboard_init
    predictor_init ⟨some [("Finance", 3.2, 2400)], none, none⟩ rfl⟩

/-!
The simulated historical exchange-rate series
(currency_strength_analysis.py lines 33-53).  The only randomness in the
repository is `np.random.normal(mean, sd, n)` drawn from the global numpy
generator, which the code never seeds.  The global generator is embedded
as the infinite stream of standard-normal variates it will emit together
with a cursor; `np.random.normal` consumes `n` variates and scales them. -/
structure RNG where
  stream : Nat → ℚ
  pos : Nat

def normalDraws (rng : RNG) (mean sd : ℚ) (n : Nat) : List ℚ × RNG :=
  ((List.range n).map (fun i => mean + sd * rng.stream (rng.pos + i)),
    ⟨rng.stream, rng.pos + n⟩)

structure CurrencySeries where
  month_index : List Nat
  usd_zar : List ℚ
  cny_zar : List ℚ
  gbp_zar : List ℚ
deriving DecidableEq

/-- create_currency_dashboard: 24 monthly rates per pair,
`base + np.random.normal(0, sd, 24)`, drawn from the global generator in
sequence.  The date index is abstracted to month numbers; the volatility
block (a standard deviation, hence a square root over floats) is part of
the reporting output and plays no role in the noise-generation claim. -/
def create_currency_dashboard (rng : RNG) : CurrencySeries × RNG :=
  let u := normalDraws rng 0 (1 / 2) 24
  let c := normalDraws u.2 0 (1 / 10) 24
  let g := normalDraws c.2 0 (4 / 5) 24
  (⟨List.range 24,
    u.1.map (fun z => 18.5 + z),
    c.1.map (fun z => 2.55 + z),
    g.1.map (fun z => 23.4 + z)⟩, g.2)

/-- C9 (code bug): `create_currency_dashboard` accepts no seed — its only
input is the ambient global-generator state — and its output varies with
that ambient state: over the all-zero and the all-one variate streams the
simulated series differ, so no parameter of the call can make the trends
reproducible. -/
theorem create_currency_dashboard_unseeded :
    (create_currency_dashboard ⟨fun _ => 0, 0⟩).1
      ≠ (create_currency_dashboard ⟨fun _ => 1, 0⟩).1 := by
  have hr : List.range 24
      = [0, 1, 2, 3, 4, 5, 6, 7, 8, 9, 10, 11, 12, 13, 14, 15, 16, 17, 18,
          19, 20, 21, 22, 23] := rfl
  norm_num [create_currency_dashboard, normalDraws, hr, CurrencySeries.mk.injEq]
